import Mathlib

/-!
Shallow embedding of the uroboros repository (an autonomous coding-agent
loop) for checking its natural-language specification.

Sources embedded below:
* src/uroboros/core/types.py      - the data model (Task, Patch, Skill, ...)
* src/uroboros/core/utils.py      - clean_code_block (markdown fence sanitizer)
* src/uroboros/arbiter/sandbox.py - E2BArbiter.execute result classification
* src/uroboros/evolver/meta.py    - MetaPrompter.evolve_system_prompt
* src/uroboros/evolver/optimizer.py - PromptOptimizer (ledger: record_run, step)
* src/uroboros/memory/retrieval.py  - RetrievalStrategy.rerank
* src/uroboros/main.py            - OuroborosEngine.run_cycle (attempt loop)

Python floats are embedded as rationals, wall-clock timestamps are threaded
as an explicit parameter, and calls to external services (the E2B sandbox
vendor and the model gateway) are embedded as explicit outcome values fed
to the functions that in the source would perform the call.
-/

namespace Uroboros

/-- `TestStatus` from core/types.py. -/
inductive TestStatus where
  | passed
  | failed
  | error
  | skipped
deriving DecidableEq, Repr

/-- `TaskStatus` from core/types.py. -/
inductive TaskStatus where
  | pending
  | in_progress
  | completed
  | failedTask
deriving DecidableEq, Repr

/-- `FileArtifact` from core/types.py. -/
structure FileArtifact where
  file_path : String
  content : String
  language : String := "python"
deriving DecidableEq, Repr

/-- `Task` from core/types.py (frozen pydantic model). -/
structure Task where
  id : String
  description : String
  requirements : List String := []
  initial_files : List FileArtifact := []
  status : TaskStatus := TaskStatus.pending
deriving DecidableEq, Repr

/-- `Patch` from core/types.py. -/
structure Patch where
  file_path : String
  diff : String
  explanation : String
deriving DecidableEq, Repr

/-- `TestResult` from core/types.py.  `duration_ms` and `coverage_percent`
are Python floats, embedded as rationals. -/
structure TestResult where
  test_id : String
  status : TestStatus
  stdout : String
  stderr : String
  exit_code : Int
  duration_ms : Rat
  coverage_percent : Option Rat := none
deriving DecidableEq, Repr

/-- `Skill` from core/types.py. -/
structure Skill where
  name : String
  code : String
  docstring : String
  embedding : Option (List Rat) := none
  tags : List String := []
deriving DecidableEq, Repr

/-! ## Sandbox arbiter (arbiter/sandbox.py)

`E2BArbiter.execute` calls the external E2B vendor.  The observable
behaviour of the vendor session is embedded as a value of `SessionOutcome`.
The control flow of the source matters here: the call
`sandbox.commands.run(cmd, timeout=...)` at line 68 sits in an inner `try`
whose `except Exception` at line 74 catches every exception that call
raises — the builtin `TimeoutError` and any vendor timeout exception are
`Exception` subclasses, so a test-command timeout is caught there too and
flows into `_handle_command_exception`.  The outer `except TimeoutError` at
line 80 is therefore reachable only from a `TimeoutError` raised outside
the inner `try` (sandbox creation, file writes, dependency install).
Attribute reads done with `getattr(x, field, default)` in the source are
embedded as `Option` fields read with `Option.getD`. -/

/-- Outcome of `sandbox.commands.run(cmd, timeout=...)` at line 68 of
arbiter/sandbox.py: a returned process object (fields read by
`_parse_process_output` via getattr with defaults) or a raised exception
(fields read by `_handle_command_exception` via getattr with defaults;
`msg` is `str(error)`).  A timeout exception raised by the command run is
an `exc` outcome: timeout exceptions carry none of the three attributes,
so the getattr defaults apply. -/
inductive CmdOutcome where
  | ok (stdout stderr : Option String) (exit_code : Option Int)
  | exc (stdout stderr : Option String) (exit_code : Option Int) (msg : String)
deriving DecidableEq, Repr

/-- Observable outcome of one sandbox session in `E2BArbiter.execute`:
the command run was reached and returned or raised (`ran`), a
`TimeoutError` was raised outside the inner command-run `try` and reached
the outer handler at line 80 (`timeout`), or another exception reached the
outer handler at line 92 (`infra`). -/
inductive SessionOutcome where
  | ran (o : CmdOutcome)
  | timeout
  | infra (msg : String)
deriving DecidableEq, Repr

/-- `E2BArbiter._parse_process_output` (arbiter/sandbox.py lines 135-144). -/
def parse_process_output (test_id : String) (stdout stderr : Option String)
    (exit_code : Option Int) : TestResult :=
  { test_id := test_id
    status := TestStatus.passed
    stdout := stdout.getD ""
    stderr := stderr.getD ""
    exit_code := exit_code.getD 0
    duration_ms := 0 }

/-- `E2BArbiter._handle_command_exception` (arbiter/sandbox.py lines 146-163). -/
def handle_command_exception (test_id : String) (stdout stderr : Option String)
    (exit_code : Option Int) (msg : String) : TestResult :=
  { test_id := test_id
    status := TestStatus.failed
    stdout := stdout.getD ""
    stderr := stderr.getD msg
    exit_code := exit_code.getD 1
    duration_ms := 0 }

/-- `E2BArbiter.execute` (arbiter/sandbox.py lines 28-125), as a function of
the configured timeout, the execution id, and the sandbox session outcome. -/
def execute (timeout_seconds : Nat) (execution_id : String)
    (s : SessionOutcome) : TestResult :=
  match s with
  | SessionOutcome.ran (CmdOutcome.ok stdout stderr exit_code) =>
      parse_process_output execution_id stdout stderr exit_code
  | SessionOutcome.ran (CmdOutcome.exc stdout stderr exit_code msg) =>
      handle_command_exception execution_id stdout stderr exit_code msg
  | SessionOutcome.timeout =>
      { test_id := execution_id
        status := TestStatus.error
        stdout := ""
        stderr := "Execution Timed Out"
        exit_code := 124
        duration_ms := (timeout_seconds : Rat) * 1000 }
  | SessionOutcome.infra msg =>
      { test_id := execution_id
        status := TestStatus.error
        stdout := ""
        stderr := "Infrastructure Error: " ++ msg
        exit_code := 1
        duration_ms := 0 }

/-- The sandbox vendor boundary contract (spec section 6, and the source
comment at arbiter/sandbox.py line 75): `commands.run` returns a process
object carrying `exit_code = 0` on zero exit, and raises a structured
exception carrying the nonzero `exit_code` otherwise. -/
def VendorContract : SessionOutcome → Prop
  | SessionOutcome.ran (CmdOutcome.ok _ _ exit_code) => exit_code = some 0
  | SessionOutcome.ran (CmdOutcome.exc _ _ exit_code _) =>
      ∃ n : Int, exit_code = some n ∧ n ≠ 0
  | SessionOutcome.timeout => True
  | SessionOutcome.infra _ => True

/-! ## Prompt ledger (evolver/optimizer.py, evolver/meta.py)

`PromptOptimizer` holds `self.history` and `self.current_version_id`;
persistence (`_save_history`) writes the same data to disk and is not
observable to the claims, so the state is the pair below.  Python floats
(`created_at`, `avg_success_rate`) are embedded as rationals; `time.time()`
is threaded as an explicit `now` argument. -/

/-- `PromptVersion` from evolver/optimizer.py lines 16-27. -/
structure PromptVersion where
  version_id : Nat
  content : String
  created_at : Rat := 0
  parent_version : Option Nat := none
  change_summary : String := "Initial Version"
  runs : Nat := 0
  successes : Nat := 0
  avg_success_rate : Rat := 0
deriving DecidableEq, Repr

/-- The mutable state of a `PromptOptimizer` instance. -/
structure OptState where
  history : List PromptVersion
  current_version_id : Nat := 0
deriving DecidableEq, Repr

/-- `PromptEvolution` from evolver/meta.py lines 11-15. -/
structure PromptEvolution where
  analysis : String
  optimized_prompt : String
  change_summary : String
deriving DecidableEq, Repr

/-- Outcome of the model gateway call `self.llm.chat_structured(...)` in
`MetaPrompter.evolve_system_prompt` (evolver/meta.py line 70): a structured
`PromptEvolution`, or a raised exception. -/
inductive GatewayResult where
  | ok (pe : PromptEvolution)
  | err (msg : String)
deriving DecidableEq, Repr

/-- `MetaPrompter.evolve_system_prompt` (evolver/meta.py lines 27-86).
The gateway call outcome is an explicit argument.  On failure the source
catches the exception and returns the original prompt wrapped in a
fallback `PromptEvolution`; it never raises. -/
def evolve_system_prompt (current_prompt : String)
    (gw : GatewayResult) : PromptEvolution :=
  match gw with
  | GatewayResult.ok pe => pe
  | GatewayResult.err _ =>
      { analysis := "Error during evolution"
        optimized_prompt := current_prompt
        change_summary := "None (Error)" }

/-- `self.evolution_threshold_runs` (optimizer.py line 43). -/
def evolution_threshold_runs : Nat := 5

/-- `self.evolution_threshold_rate` (optimizer.py line 44), the float 0.6. -/
def evolution_threshold_rate : Rat := 3 / 5

/-- `PromptOptimizer._get_default_prompt` (optimizer.py lines 115-119). -/
def get_default_prompt : String :=
  "You are Uroboros, an elite Autonomous Software Engineer.\nYour goal is to solve the user\x27s task by modifying the codebase.\nAnalyze requirements, check your memory for skills, and write robust code."

/-- Replace the last element of a list (Python `self.history[-1]` updated
in place by `record_run`). -/
def updateLast (f : PromptVersion → PromptVersion) :
    List PromptVersion → List PromptVersion
  | [] => []
  | [v] => [f v]
  | v :: rest => v :: updateLast f rest

/-- `PromptOptimizer._initialize_history` (optimizer.py lines 121-128). -/
def initialize_history (st : OptState) (now : Rat) : OptState :=
  { st with history := st.history ++
      [{ version_id := 0, content := get_default_prompt, created_at := now }] }

/-- `PromptOptimizer.record_run` (optimizer.py lines 55-68). -/
def record_run (st : OptState) (success : Bool) (now : Rat) : OptState :=
  let st := if st.history.isEmpty then initialize_history st now else st
  { st with history := updateLast (fun current =>
      let runs := current.runs + 1
      let successes := current.successes + (if success then 1 else 0)
      { current with
          runs := runs
          successes := successes
          avg_success_rate := (successes : Rat) / (runs : Rat) }) st.history }

/-- `PromptOptimizer.step` (optimizer.py lines 70-113).  The gateway call
outcome inside `MetaPrompter.evolve_system_prompt` is an explicit argument;
`recent_failures` only feeds the gateway prompt.  Returns the new state and
the boolean the source returns. -/
def step (st : OptState) (recent_failures : List String)
    (gw : GatewayResult) (now : Rat) : OptState × Bool :=
  match st.history.getLast? with
  | none => (st, false)
  | some current =>
      if current.runs < evolution_threshold_runs then (st, false)
      else if evolution_threshold_rate ≤ current.avg_success_rate then (st, false)
      else
        let _ := recent_failures
        let evolution := evolve_system_prompt current.content gw
        let new_version : PromptVersion :=
          { version_id := st.current_version_id + 1
            content := evolution.optimized_prompt
            created_at := now
            parent_version := some current.version_id
            change_summary := evolution.change_summary }
        ({ history := st.history ++ [new_version]
           current_version_id := st.current_version_id + 1 }, true)

/-! ## Re-ranker (memory/retrieval.py) -/

/-- `ReRankResult` from memory/retrieval.py lines 12-15. -/
structure ReRankResult where
  selected_skill_names : List String
  reasoning : String
deriving DecidableEq, Repr

/-- Outcome of the model gateway call in `RetrievalStrategy.rerank`
(memory/retrieval.py line 72). -/
inductive ReRankOutcome where
  | ok (r : ReRankResult)
  | err (msg : String)
deriving DecidableEq, Repr

/-- `RetrievalStrategy.rerank` (memory/retrieval.py lines 27-93).  The
second component counts how many model gateway calls were made. -/
def rerank (query : String) (candidates : List Skill) (top_k : Nat)
    (llm : ReRankOutcome) : List Skill × Nat :=
  let _ := query
  if candidates.isEmpty then ([], 0)
  else if candidates.length ≤ top_k then (candidates, 0)
  else
    match llm with
    | ReRankOutcome.err _ => (candidates.take top_k, 1)
    | ReRankOutcome.ok r =>
        let final_skills :=
          candidates.filter (fun s => r.selected_skill_names.contains s.name)
        if final_skills.isEmpty then (candidates.take top_k, 1)
        else (final_skills.take top_k, 1)

/-! ## Code-fence sanitizer (core/utils.py `clean_code_block`)

The source runs `re.findall(pattern, text, re.DOTALL)` with
`pattern = "triple-backtick (?:\w+)? newline (.*?) triple-backtick"`,
takes `max(matches, key=len)` and strips it; with no match it strips the
whole text.  The functions below implement exactly that regex search:
`re.findall` scans left to right for the leftmost match and resumes after
each match's end; `(?:\w+)?` is a maximal word-character run that must be
followed by a newline (a shorter run would end at a word character, so
backtracking cannot help); the lazy `(.*?)` group ends at the first
following occurrence of three backticks. -/

/-- The backtick character (avoiding a char literal for it). -/
def btick : Char := Char.ofNat 96

/-- Python `\w` on the character sets used here: alphanumeric or underscore. -/
def isWordChar (c : Char) : Bool := c.isAlphanum || c = '_'

/-- Match `triple-backtick (?:\w+)? newline` at the head of the list,
returning the remainder after the newline. -/
def matchOpen (l : List Char) : Option (List Char) :=
  if l.take 3 = [btick, btick, btick] then
    match (l.drop 3).dropWhile isWordChar with
    | '\n' :: r => some r
    | _ => none
  else none

/-- Split a list at the first occurrence of three backticks: returns the
part before it (the lazy group) and the part after it. -/
def splitAtClose : List Char → Option (List Char × List Char)
  | [] => none
  | c :: rest =>
      if c = btick ∧ rest.take 2 = [btick, btick] then some ([], rest.drop 2)
      else (splitAtClose rest).map (fun p => (c :: p.1, p.2))

/-- All bodies found by `re.findall` of the fence pattern, scanning left to
right; the fuel argument bounds the recursion and is set to the input
length, which suffices because every recursive call drops at least one
character. -/
def findBlocksAux : Nat → List Char → List (List Char)
  | 0, _ => []
  | _ + 1, [] => []
  | fuel + 1, c :: rest =>
      match matchOpen (c :: rest) with
      | some afterOpen =>
          match splitAtClose afterOpen with
          | some (body, after) => body :: findBlocksAux fuel after
          | none => findBlocksAux fuel rest
      | none => findBlocksAux fuel rest

/-- `re.findall(r"...", text, re.DOTALL)` from `clean_code_block`. -/
def findBlocks (l : List Char) : List (List Char) :=
  findBlocksAux l.length l

/-- Python `max(matches, key=len)` on a nonempty list: the first element of
maximal length (Python `max` keeps the earlier element on ties). -/
def maxByLen (first : List Char) (rest : List (List Char)) : List Char :=
  rest.foldl (fun acc x => if acc.length < x.length then x else acc) first

/-- Python `str.strip()` (the characters stripped in the source are ASCII
whitespace). -/
def pyStrip (l : List Char) : List Char :=
  ((l.dropWhile Char.isWhitespace).reverse.dropWhile Char.isWhitespace).reverse

/-- `clean_code_block` (core/utils.py lines 104-112). -/
def clean_code_block (text : String) : String :=
  match findBlocks text.toList with
  | [] => (pyStrip text.toList).asString
  | m :: ms => (pyStrip (maxByLen m ms)).asString

/-- Whether a character list contains three consecutive backticks (a fence
marker).  Used to state that the sanitizer's output is fence-free. -/
def hasFence : List Char → Bool
  | [] => false
  | c :: rest =>
      if c = btick ∧ rest.take 2 = [btick, btick] then true else hasFence rest

/-! ## Cycle orchestrator (main.py `OuroborosEngine.run_cycle`)

The attempt loop of `run_cycle` (main.py lines 54-147) is embedded as a
pure function.  Per attempt, the outside world contributes the actor's
solution patches and the arbiter's verdict; these are provided by an
environment `env : Nat → AttemptEnv` indexed by the (0-based) attempt
number.  The trace records every task value passed to `actor.solve`, every
skill passed to `memory.store_skill`, and every call to
`PromptOptimizer.record_run` (main.py never makes one: it does not
reference the optimizer at all).  If the PASSED branch is reached with an
empty patch list, `source_files[0]` raises `IndexError`; the trace marks
this with `crashed = true` and keeps the effects that happened before the
raise. -/

/-- Per-attempt contributions of the external services to `run_cycle`:
`solution.patches` returned by the actor and the `TestResult` returned by
the arbiter. -/
structure AttemptEnv where
  patches : List Patch
  result : TestResult
deriving Repr

/-- Observable trace of one `run_cycle` call. -/
structure CycleTrace where
  solveTasks : List Task
  storedSkills : List Skill
  recordRunCalls : List Bool
  success : Bool
  crashed : Bool
  attempts : Nat
deriving DecidableEq, Repr

/-- The feedback string built in the failure branch (main.py lines
129-132): `previous_feedback` for the next attempt. -/
def mkFeedback (r : TestResult) : String :=
  "Test Failed. Output:\n" ++ ("STDOUT:\n" ++ r.stdout ++ "\n\nSTDERR:\n" ++ r.stderr)

/-- The marker inserted before appended feedback (main.py line 66). -/
def feedbackMarker : String := "\n\nPREVIOUS FAILURE FEEDBACK:\n"

/-- The feedback append of main.py lines 64-67: when `previous_feedback`
is non-empty, `task.model_copy` with the extended description (the frozen
original is not mutated; a copy is used from then on). -/
def applyFeedback (task : Task) (previous_feedback : String) : Task :=
  if previous_feedback = "" then task
  else { task with description :=
           task.description ++ feedbackMarker ++ previous_feedback }

/-- The skill built on a PASSED verdict (main.py lines 113-118). -/
def mkSkill (task : Task) (final_code : String) : Skill :=
  { name := "skill_" ++ task.id.take 8
    code := final_code
    docstring := "Solution for: " ++ task.description
    tags := ["verified", "auto-generated"] }

/-- One pass through the body of the `while` loop of `run_cycle`, iterated
on fuel (`max_retries - attempts` at entry).  Mirrors main.py lines 59-140:
the feedback append via `model_copy`, the actor solve, the fence cleaning
of the patches, the arbiter verdict, the PASSED consolidation (skill built
at lines 113-118 from `source_files[0]`), and the failure feedback. -/
def runCycleAux (env : Nat → AttemptEnv) :
    Nat → Nat → Task → String → CycleTrace
  | 0, attempts, _, _ =>
      { solveTasks := [], storedSkills := [], recordRunCalls := []
        success := false, crashed := false, attempts := attempts }
  | fuel + 1, attempts, task, previous_feedback =>
      let task' := applyFeedback task previous_feedback
      let e := env attempts
      let source_files := e.patches.map (fun p =>
        FileArtifact.mk p.file_path (clean_code_block p.diff) "python")
      let result := e.result
      if result.status = TestStatus.passed then
        match source_files with
        | [] =>
            { solveTasks := [task'], storedSkills := [], recordRunCalls := []
              success := true, crashed := true, attempts := attempts + 1 }
        | f :: _ =>
            { solveTasks := [task'], storedSkills := [mkSkill task' f.content]
              recordRunCalls := []
              success := true, crashed := false, attempts := attempts + 1 }
      else
        let t := runCycleAux env fuel (attempts + 1) task' (mkFeedback result)
        { t with solveTasks := task' :: t.solveTasks }

/-- `self.max_retries` (main.py line 30). -/
def max_retries : Nat := 3

/-- `OuroborosEngine.run_cycle` (main.py lines 32-147) from the point where
the task exists, as a function of the task and the per-attempt environment. -/
def runCycle (task : Task) (env : Nat → AttemptEnv) : CycleTrace :=
  runCycleAux env max_retries 0 task ""

/-! ## Helper lemmas about `step` -/

/-- With an empty history, `step` is a no-op returning false. -/
theorem step_empty (st : OptState) (failures : List String) (gw : GatewayResult)
    (now : Rat) (h : st.history.getLast? = none) :
    step st failures gw now = (st, false) := by
  unfold step
  rw [h]

/-- Below the run threshold, `step` is a no-op returning false. -/
theorem step_low_runs (st : OptState) (failures : List String)
    (gw : GatewayResult) (now : Rat) (cur : PromptVersion)
    (h : st.history.getLast? = some cur)
    (hr : cur.runs < evolution_threshold_runs) :
    step st failures gw now = (st, false) := by
  unfold step
  rw [h]
  dsimp only
  rw [if_pos hr]

/-- At or above the rate threshold, `step` is a no-op returning false. -/
theorem step_good_rate (st : OptState) (failures : List String)
    (gw : GatewayResult) (now : Rat) (cur : PromptVersion)
    (h : st.history.getLast? = some cur)
    (hr : evolution_threshold_runs ≤ cur.runs)
    (hs : evolution_threshold_rate ≤ cur.avg_success_rate) :
    step st failures gw now = (st, false) := by
  unfold step
  rw [h]
  dsimp only
  rw [if_neg (not_lt.mpr hr), if_pos hs]

/-- When both thresholds are met, `step` appends the version built from the
gateway outcome and returns true. -/
theorem step_fires (st : OptState) (failures : List String)
    (gw : GatewayResult) (now : Rat) (cur : PromptVersion)
    (h : st.history.getLast? = some cur)
    (hr : evolution_threshold_runs ≤ cur.runs)
    (hs : cur.avg_success_rate < evolution_threshold_rate) :
    step st failures gw now =
      ({ history := st.history ++
           [{ version_id := st.current_version_id + 1
              content := (evolve_system_prompt cur.content gw).optimized_prompt
              created_at := now
              parent_version := some cur.version_id
              change_summary := (evolve_system_prompt cur.content gw).change_summary
              runs := 0, successes := 0, avg_success_rate := 0 }]
         current_version_id := st.current_version_id + 1 }, true) := by
  unfold step
  rw [h]
  dsimp only
  rw [if_neg (not_lt.mpr hr), if_neg (not_le.mpr hs)]

/-! ## Helper lemmas about the sanitizer -/

/-- A list whose first two characters are two backticks. -/
theorem take_two_btick {l : List Char} (h : l.take 2 = [btick, btick]) :
    ∃ t, l = btick :: btick :: t := by
  cases l with
  | nil => simp at h
  | cons a t =>
    cases t with
    | nil => simp at h
    | cons b t' =>
      simp [List.take] at h
      exact ⟨t', by rw [h.1, h.2]⟩

/-- `splitAtClose` splits its input at a fence: the input is the body,
then three backticks, then the remainder. -/
theorem splitAtClose_eq : ∀ (l b r : List Char),
    splitAtClose l = some (b, r) → b ++ btick :: btick :: btick :: r = l := by
  intro l
  induction l with
  | nil => intro b r h; exact Option.noConfusion h
  | cons c rest ih =>
    intro b r h
    unfold splitAtClose at h
    by_cases hc : c = btick ∧ rest.take 2 = [btick, btick]
    · rw [if_pos hc] at h
      simp only [Option.some.injEq, Prod.mk.injEq] at h
      obtain ⟨hb, hr⟩ := h
      obtain ⟨t, ht⟩ := take_two_btick hc.2
      rw [← hb, ← hr, hc.1, ht]
      rfl
    · rw [if_neg hc] at h
      cases hsp : splitAtClose rest with
      | none => rw [hsp] at h; exact Option.noConfusion h
      | some p =>
        obtain ⟨b', r'⟩ := p
        rw [hsp] at h
        simp only [Option.map_some', Option.some.injEq, Prod.mk.injEq] at h
        obtain ⟨hb, hr⟩ := h
        rw [← hb, ← hr]
        have := ih b' r' hsp
        simp only [List.cons_append, this]

/-- The body produced by `splitAtClose` contains no fence marker. -/
theorem splitAtClose_no_fence : ∀ (l b r : List Char),
    splitAtClose l = some (b, r) → hasFence b = false := by
  intro l
  induction l with
  | nil => intro b r h; exact Option.noConfusion h
  | cons c rest ih =>
    intro b r h
    unfold splitAtClose at h
    by_cases hc : c = btick ∧ rest.take 2 = [btick, btick]
    · rw [if_pos hc] at h
      simp only [Option.some.injEq, Prod.mk.injEq] at h
      rw [← h.1]
      rfl
    · rw [if_neg hc] at h
      cases hsp : splitAtClose rest with
      | none => rw [hsp] at h; exact Option.noConfusion h
      | some p =>
        obtain ⟨b', r'⟩ := p
        rw [hsp] at h
        simp only [Option.map_some', Option.some.injEq, Prod.mk.injEq] at h
        obtain ⟨hb, _⟩ := h
        rw [← hb]
        have hcond : ¬(c = btick ∧ b'.take 2 = [btick, btick]) := by
          rintro ⟨hcb, ht⟩
          apply hc
          refine ⟨hcb, ?_⟩
          obtain ⟨t, ht'⟩ := take_two_btick ht
          have hrest := splitAtClose_eq rest b' r' hsp
          rw [← hrest, ht']
          rfl
        simp only [hasFence]
        rw [if_neg hcond]
        exact ih b' r' hsp

/-- Appending on the right preserves the presence of a fence. -/
theorem hasFence_append_right : ∀ (m c : List Char),
    hasFence m = true → hasFence (m ++ c) = true := by
  intro m
  induction m with
  | nil => intro c h; exact Bool.noConfusion h
  | cons x m' ih =>
    intro c h
    rw [List.cons_append]
    simp only [hasFence] at h ⊢
    by_cases hx : x = btick ∧ m'.take 2 = [btick, btick]
    · obtain ⟨t, ht⟩ := take_two_btick hx.2
      rw [if_pos ⟨hx.1, by rw [ht]; rfl⟩]
    · rw [if_neg hx] at h
      by_cases hx2 : x = btick ∧ (m' ++ c).take 2 = [btick, btick]
      · rw [if_pos hx2]
      · rw [if_neg hx2]
        exact ih c h

/-- Appending on the left preserves the presence of a fence. -/
theorem hasFence_append_left : ∀ (a m : List Char),
    hasFence m = true → hasFence (a ++ m) = true := by
  intro a
  induction a with
  | nil => intro m h; simpa using h
  | cons y a' ih =>
    intro m h
    rw [List.cons_append]
    simp only [hasFence]
    by_cases hy : y = btick ∧ (a' ++ m).take 2 = [btick, btick]
    · rw [if_pos hy]
    · rw [if_neg hy]
      exact ih m h

/-- A middle segment of a fence-free list is fence-free. -/
theorem no_fence_middle (a m c : List Char)
    (h : hasFence (a ++ m ++ c) = false) : hasFence m = false := by
  by_contra hm
  rw [Bool.not_eq_false] at hm
  have := hasFence_append_left a (m ++ c) (hasFence_append_right m c hm)
  rw [← List.append_assoc] at this
  rw [this] at h
  exact Bool.noConfusion h

/-- `pyStrip` removes a prefix and a suffix segment: the original splits
around it. -/
theorem pyStrip_decomp (m : List Char) : ∃ a c, m = a ++ pyStrip m ++ c := by
  refine ⟨m.takeWhile Char.isWhitespace,
    ((m.dropWhile Char.isWhitespace).reverse.takeWhile Char.isWhitespace).reverse, ?_⟩
  unfold pyStrip
  conv_lhs => rw [← List.takeWhile_append_dropWhile (p := Char.isWhitespace) (l := m)]
  rw [List.append_assoc]
  congr 1
  conv_lhs => rw [← List.reverse_reverse (m.dropWhile Char.isWhitespace)]
  conv_lhs =>
    rw [← List.takeWhile_append_dropWhile (p := Char.isWhitespace)
      (l := (m.dropWhile Char.isWhitespace).reverse)]
  rw [List.reverse_append]

/-- Stripping preserves fence-freeness. -/
theorem pyStrip_no_fence (m : List Char) (h : hasFence m = false) :
    hasFence (pyStrip m) = false := by
  obtain ⟨a, c, hm⟩ := pyStrip_decomp m
  rw [hm] at h
  exact no_fence_middle a _ c h

/-- Every body found by the fence scan is fence-free. -/
theorem findBlocksAux_no_fence : ∀ (fuel : Nat) (l b : List Char),
    b ∈ findBlocksAux fuel l → hasFence b = false := by
  intro fuel
  induction fuel with
  | zero => intro l b hb; exact absurd hb (List.not_mem_nil b)
  | succ n ih =>
    intro l b hb
    cases l with
    | nil => exact absurd hb (List.not_mem_nil b)
    | cons c rest =>
      unfold findBlocksAux at hb
      cases ho : matchOpen (c :: rest) with
      | none => rw [ho] at hb; exact ih rest b hb
      | some afterOpen =>
        rw [ho] at hb
        dsimp only at hb
        cases hsp : splitAtClose afterOpen with
        | none => rw [hsp] at hb; exact ih rest b hb
        | some p =>
          obtain ⟨body, after⟩ := p
          rw [hsp] at hb
          dsimp only at hb
          simp only [List.mem_cons] at hb
          rcases hb with hb | hb
          · rw [hb]
            exact splitAtClose_no_fence afterOpen body after hsp
          · exact ih after b hb

/-- Every body found by `findBlocks` is fence-free. -/
theorem findBlocks_no_fence (l b : List Char) (h : b ∈ findBlocks l) :
    hasFence b = false :=
  findBlocksAux_no_fence l.length l b h

/-- `maxByLen` returns an element of the list. -/
theorem maxByLen_mem : ∀ (ms : List (List Char)) (m : List Char),
    maxByLen m ms ∈ m :: ms := by
  intro ms
  induction ms with
  | nil => intro m; simp [maxByLen]
  | cons x ms' ih =>
    intro m
    unfold maxByLen
    rw [List.foldl_cons]
    have h := ih (if m.length < x.length then x else m)
    unfold maxByLen at h
    rcases List.mem_cons.mp h with h | h
    · rw [h]
      by_cases hx : m.length < x.length
      · rw [if_pos hx]; exact List.mem_cons_of_mem _ (List.mem_cons_self _ _)
      · rw [if_neg hx]; exact List.mem_cons_self _ _
    · exact List.mem_cons_of_mem _ (List.mem_cons_of_mem _ h)

/-- The accumulator's length is a lower bound for `maxByLen`. -/
theorem maxByLen_acc_le : ∀ (ms : List (List Char)) (m : List Char),
    m.length ≤ (maxByLen m ms).length := by
  intro ms
  induction ms with
  | nil => intro m; exact le_refl _
  | cons x ms' ih =>
    intro m
    unfold maxByLen
    rw [List.foldl_cons]
    refine le_trans ?_ (ih (if m.length < x.length then x else m))
    by_cases hx : m.length < x.length
    · rw [if_pos hx]; exact le_of_lt hx
    · rw [if_neg hx]

/-- `maxByLen` dominates every element's length. -/
theorem maxByLen_le : ∀ (ms : List (List Char)) (m x : List Char),
    x ∈ m :: ms → x.length ≤ (maxByLen m ms).length := by
  intro ms
  induction ms with
  | nil =>
    intro m x hx
    rcases List.mem_cons.mp hx with h | h
    · rw [h]; exact le_refl _
    · simp at h
  | cons y ms' ih =>
    intro m x hx
    unfold maxByLen
    rw [List.foldl_cons]
    rcases List.mem_cons.mp hx with h | h
    · rw [h]
      refine le_trans ?_ (maxByLen_acc_le ms' (if m.length < y.length then y else m))
      by_cases hy : m.length < y.length
      · rw [if_pos hy]; exact le_of_lt hy
      · rw [if_neg hy]
    · rcases List.mem_cons.mp h with h' | h'
      · rw [h']
        refine le_trans ?_ (maxByLen_acc_le ms' (if m.length < y.length then y else m))
        by_cases hy : m.length < y.length
        · rw [if_pos hy]
        · rw [if_neg hy]; exact le_of_not_lt hy
      · exact ih (if m.length < y.length then y else m) x
          (List.mem_cons_of_mem _ h')

/-! ## Helper lemmas about the attempt loop -/

/-- With empty feedback, `applyFeedback` is the identity. -/
theorem applyFeedback_empty (task : Task) : applyFeedback task "" = task :=
  if_pos rfl

/-- With nonempty feedback, `applyFeedback` extends the description. -/
theorem applyFeedback_ne (task : Task) (pf : String) (h : pf ≠ "") :
    applyFeedback task pf =
      { task with description := task.description ++ feedbackMarker ++ pf } :=
  if_neg h

/-- `mkFeedback` is never the empty string. -/
theorem mkFeedback_ne_empty (r : TestResult) : mkFeedback r ≠ "" := by
  intro h
  have hd := congrArg String.data h
  unfold mkFeedback at hd
  rw [String.data_append] at hd
  have h1 := (List.append_eq_nil.mp hd).1
  exact absurd h1 (by decide)

/-- One failed attempt: the loop records the solve task and recurses with
the feedback. -/
theorem runCycleAux_fail_step (env : Nat → AttemptEnv) (fuel att : Nat)
    (task : Task) (pf : String)
    (h : (env att).result.status ≠ TestStatus.passed) :
    runCycleAux env (fuel + 1) att task pf =
      { solveTasks := applyFeedback task pf ::
          (runCycleAux env fuel (att + 1) (applyFeedback task pf)
            (mkFeedback (env att).result)).solveTasks
        storedSkills := (runCycleAux env fuel (att + 1) (applyFeedback task pf)
          (mkFeedback (env att).result)).storedSkills
        recordRunCalls := (runCycleAux env fuel (att + 1) (applyFeedback task pf)
          (mkFeedback (env att).result)).recordRunCalls
        success := (runCycleAux env fuel (att + 1) (applyFeedback task pf)
          (mkFeedback (env att).result)).success
        crashed := (runCycleAux env fuel (att + 1) (applyFeedback task pf)
          (mkFeedback (env att).result)).crashed
        attempts := (runCycleAux env fuel (att + 1) (applyFeedback task pf)
          (mkFeedback (env att).result)).attempts } := by
  conv_lhs => rw [runCycleAux]
  dsimp only
  rw [if_neg h]

/-- One passed attempt with a nonempty patch list: the loop stores the
skill built from the first cleaned patch and stops. -/
theorem runCycleAux_pass_step (env : Nat → AttemptEnv) (fuel att : Nat)
    (task : Task) (pf : String) (p : Patch) (ps : List Patch)
    (h : (env att).result.status = TestStatus.passed)
    (hp : (env att).patches = p :: ps) :
    runCycleAux env (fuel + 1) att task pf =
      { solveTasks := [applyFeedback task pf]
        storedSkills := [mkSkill (applyFeedback task pf) (clean_code_block p.diff)]
        recordRunCalls := []
        success := true, crashed := false, attempts := att + 1 } := by
  conv_lhs => rw [runCycleAux]
  dsimp only
  rw [hp, if_pos h]
  rfl

/-- One passed attempt with an empty patch list: `source_files[0]` raises,
marked as a crash; no skill is stored. -/
theorem runCycleAux_pass_nil (env : Nat → AttemptEnv) (fuel att : Nat)
    (task : Task) (pf : String)
    (h : (env att).result.status = TestStatus.passed)
    (hp : (env att).patches = []) :
    runCycleAux env (fuel + 1) att task pf =
      { solveTasks := [applyFeedback task pf]
        storedSkills := []
        recordRunCalls := []
        success := true, crashed := true, attempts := att + 1 } := by
  conv_lhs => rw [runCycleAux]
  dsimp only
  rw [hp, if_pos h]
  rfl

/-- The first solve task of any entered loop is the feedback-extended
task. -/
theorem runCycleAux_head (env : Nat → AttemptEnv) (fuel att : Nat)
    (task : Task) (pf : String) :
    (runCycleAux env (fuel + 1) att task pf).solveTasks.get? 0 =
      some (applyFeedback task pf) := by
  by_cases hs : (env att).result.status = TestStatus.passed
  · cases hp : (env att).patches with
    | nil =>
      rw [runCycleAux_pass_nil env fuel att task pf hs hp]
      rfl
    | cons p ps =>
      rw [runCycleAux_pass_step env fuel att task pf p ps hs hp]
      rfl
  · rw [runCycleAux_fail_step env fuel att task pf hs]
    rfl

/-- A single-attempt loop produces exactly one solve task. -/
theorem runCycleAux_one (env : Nat → AttemptEnv) (att : Nat)
    (task : Task) (pf : String) :
    (runCycleAux env 1 att task pf).solveTasks = [applyFeedback task pf] := by
  by_cases hs : (env att).result.status = TestStatus.passed
  · cases hp : (env att).patches with
    | nil =>
      rw [runCycleAux_pass_nil env 0 att task pf hs hp]
    | cons p ps =>
      rw [runCycleAux_pass_step env 0 att task pf p ps hs hp]
  · rw [runCycleAux_fail_step env 0 att task pf hs]
    rfl

/-- The loop never calls `record_run` (main.py does not reference the
optimizer). -/
theorem runCycleAux_recordRuns (env : Nat → AttemptEnv) :
    ∀ (fuel att : Nat) (task : Task) (pf : String),
      (runCycleAux env fuel att task pf).recordRunCalls = [] := by
  intro fuel
  induction fuel with
  | zero => intro att task pf; rfl
  | succ n ih =>
    intro att task pf
    by_cases hs : (env att).result.status = TestStatus.passed
    · cases hp : (env att).patches with
      | nil => rw [runCycleAux_pass_nil env n att task pf hs hp]
      | cons p ps => rw [runCycleAux_pass_step env n att task pf p ps hs hp]
    · rw [runCycleAux_fail_step env n att task pf hs]
      exact ih (att + 1) (applyFeedback task pf) (mkFeedback (env att).result)

/-- Skills stored by the loop: none on failure, exactly one on a
non-crashing success. -/
theorem runCycleAux_skills (env : Nat → AttemptEnv) :
    ∀ (fuel att : Nat) (task : Task) (pf : String),
      ((runCycleAux env fuel att task pf).success = false →
        (runCycleAux env fuel att task pf).storedSkills = []) ∧
      ((runCycleAux env fuel att task pf).crashed = false →
        (runCycleAux env fuel att task pf).success = true →
        (runCycleAux env fuel att task pf).storedSkills.length = 1) := by
  intro fuel
  induction fuel with
  | zero =>
    intro att task pf
    exact ⟨fun _ => rfl, fun _ hc => Bool.noConfusion hc⟩
  | succ n ih =>
    intro att task pf
    by_cases hs : (env att).result.status = TestStatus.passed
    · cases hp : (env att).patches with
      | nil =>
        rw [runCycleAux_pass_nil env n att task pf hs hp]
        exact ⟨fun hc => Bool.noConfusion hc, fun hc => Bool.noConfusion hc⟩
      | cons p ps =>
        rw [runCycleAux_pass_step env n att task pf p ps hs hp]
        exact ⟨fun hc => Bool.noConfusion hc, fun _ _ => rfl⟩
    · rw [runCycleAux_fail_step env n att task pf hs]
      exact ih (att + 1) (applyFeedback task pf) (mkFeedback (env att).result)

/-- Consecutive solve tasks differ exactly by one appended feedback
envelope built from the earlier attempt's result. -/
theorem runCycleAux_consecutive (env : Nat → AttemptEnv) :
    ∀ (fuel att : Nat) (task : Task) (pf : String) (i : Nat) (ti ti1 : Task),
      (runCycleAux env fuel att task pf).solveTasks.get? i = some ti →
      (runCycleAux env fuel att task pf).solveTasks.get? (i + 1) = some ti1 →
      ti1 = { ti with description :=
        ti.description ++ feedbackMarker ++ mkFeedback (env (att + i)).result } := by
  intro fuel
  induction fuel with
  | zero =>
    intro att task pf i ti ti1 h1 _
    exact Option.noConfusion h1
  | succ n ih =>
    intro att task pf i ti ti1 h1 h2
    by_cases hs : (env att).result.status = TestStatus.passed
    · cases hp : (env att).patches with
      | nil =>
        rw [runCycleAux_pass_nil env n att task pf hs hp] at h2
        rw [List.get?_cons_succ, List.get?_nil] at h2
        exact Option.noConfusion h2
      | cons p ps =>
        rw [runCycleAux_pass_step env n att task pf p ps hs hp] at h2
        rw [List.get?_cons_succ, List.get?_nil] at h2
        exact Option.noConfusion h2
    · rw [runCycleAux_fail_step env n att task pf hs] at h1 h2
      dsimp only at h1 h2
      cases i with
      | zero =>
        rw [List.get?_cons_zero] at h1
        rw [List.get?_cons_succ] at h2
        cases n with
        | zero => exact Option.noConfusion h2
        | succ m =>
          have hh := runCycleAux_head env m (att + 1) (applyFeedback task pf)
            (mkFeedback (env att).result)
          rw [h2] at hh
          have hti : ti = applyFeedback task pf := (Option.some.inj h1).symm
          have hti1 : ti1 = applyFeedback (applyFeedback task pf)
              (mkFeedback (env att).result) := Option.some.inj hh
          rw [hti1, ← hti,
            applyFeedback_ne ti _ (mkFeedback_ne_empty (env att).result),
            Nat.add_zero]
      | succ j =>
        rw [List.get?_cons_succ] at h1 h2
        have := ih (att + 1) (applyFeedback task pf)
          (mkFeedback (env att).result) j ti ti1 h1 h2
        have harith : att + 1 + j = att + (j + 1) := by omega
        rw [harith] at this
        exact this

/-- Unrolling corollary of `runCycleAux_fail_step` at fuel 3. -/
theorem runCycleAux_fail_step3 (env : Nat → AttemptEnv) (att : Nat)
    (task : Task) (pf : String)
    (h : (env att).result.status ≠ TestStatus.passed) :
    runCycleAux env 3 att task pf =
      { solveTasks := applyFeedback task pf ::
          (runCycleAux env 2 (att + 1) (applyFeedback task pf)
            (mkFeedback (env att).result)).solveTasks
        storedSkills := (runCycleAux env 2 (att + 1) (applyFeedback task pf)
          (mkFeedback (env att).result)).storedSkills
        recordRunCalls := (runCycleAux env 2 (att + 1) (applyFeedback task pf)
          (mkFeedback (env att).result)).recordRunCalls
        success := (runCycleAux env 2 (att + 1) (applyFeedback task pf)
          (mkFeedback (env att).result)).success
        crashed := (runCycleAux env 2 (att + 1) (applyFeedback task pf)
          (mkFeedback (env att).result)).crashed
        attempts := (runCycleAux env 2 (att + 1) (applyFeedback task pf)
          (mkFeedback (env att).result)).attempts } :=
  runCycleAux_fail_step env 2 att task pf h

/-- Unrolling corollary of `runCycleAux_fail_step` at fuel 2. -/
theorem runCycleAux_fail_step2 (env : Nat → AttemptEnv) (att : Nat)
    (task : Task) (pf : String)
    (h : (env att).result.status ≠ TestStatus.passed) :
    runCycleAux env 2 att task pf =
      { solveTasks := applyFeedback task pf ::
          (runCycleAux env 1 (att + 1) (applyFeedback task pf)
            (mkFeedback (env att).result)).solveTasks
        storedSkills := (runCycleAux env 1 (att + 1) (applyFeedback task pf)
          (mkFeedback (env att).result)).storedSkills
        recordRunCalls := (runCycleAux env 1 (att + 1) (applyFeedback task pf)
          (mkFeedback (env att).result)).recordRunCalls
        success := (runCycleAux env 1 (att + 1) (applyFeedback task pf)
          (mkFeedback (env att).result)).success
        crashed := (runCycleAux env 1 (att + 1) (applyFeedback task pf)
          (mkFeedback (env att).result)).crashed
        attempts := (runCycleAux env 1 (att + 1) (applyFeedback task pf)
          (mkFeedback (env att).result)).attempts } :=
  runCycleAux_fail_step env 1 att task pf h

/-! ## Theorems -/

/-- C2 counterexample: a concrete cycle that ends in SUCCESS makes zero
`record_run` calls, not exactly one — `run_cycle` never invokes the prompt
ledger. -/
theorem C2_counterexample :
    (runCycle
      { id := "cycle-0001", description := "D", requirements := [],
        initial_files := [], status := TaskStatus.pending }
      (fun _ =>
        { patches := [{ file_path := "lib.py", diff := "code",
                        explanation := "e" }]
          result := { test_id := "t", status := TestStatus.passed,
                      stdout := "", stderr := "", exit_code := 0,
                      duration_ms := 0 } })).success = true ∧
    (runCycle
      { id := "cycle-0001", description := "D", requirements := [],
        initial_files := [], status := TaskStatus.pending }
      (fun _ =>
        { patches := [{ file_path := "lib.py", diff := "code",
                        explanation := "e" }]
          result := { test_id := "t", status := TestStatus.passed,
                      stdout := "", stderr := "", exit_code := 0,
                      duration_ms := 0 } })).recordRunCalls.length ≠ 1 :=
  ⟨by decide, by decide⟩

/-- C2 (amended): for every cycle — whatever the terminal verdict — the
orchestrator makes no `record_run` call at all: main.py does not reference
the `PromptOptimizer`. -/
theorem C2_record_run_never_called (task : Task) (env : Nat → AttemptEnv) :
    (runCycle task env).recordRunCalls = [] :=
  runCycleAux_recordRuns env max_retries 0 task ""

/-- C6 counterexample: on a concrete SUCCESS cycle the stored skill's
docstring is `"Solution for: "` prefixed to the description (not equal to
the description), and its code is the fence-sanitized patch content (not
the raw patch content). -/
theorem C6_counterexample :
    (runCycle
      { id := "abcdef-12345", description := "Sort a list",
        requirements := [], initial_files := [],
        status := TaskStatus.pending }
      (fun _ =>
        { patches := [{ file_path := "lib.py",
                        diff := "```python\nA\n```", explanation := "e" }]
          result := { test_id := "t", status := TestStatus.passed,
                      stdout := "", stderr := "", exit_code := 0,
                      duration_ms := 0 } })).storedSkills.map Skill.docstring
        ≠ ["Sort a list"] ∧
    (runCycle
      { id := "abcdef-12345", description := "Sort a list",
        requirements := [], initial_files := [],
        status := TaskStatus.pending }
      (fun _ =>
        { patches := [{ file_path := "lib.py",
                        diff := "```python\nA\n```", explanation := "e" }]
          result := { test_id := "t", status := TestStatus.passed,
                      stdout := "", stderr := "", exit_code := 0,
                      duration_ms := 0 } })).storedSkills.map Skill.code
        ≠ ["```python\nA\n```"] :=
  ⟨by decide, by decide⟩

/-- C6 (amended): on a first-attempt SUCCESS with a nonempty patch list,
exactly the skill named `"skill_" ++ task.id.take 8` is stored, with
docstring `"Solution for: " ++ task.description`, code equal to the
fence-sanitized first patch content, and tags
`["verified", "auto-generated"]`; a cycle whose terminal verdict is not
SUCCESS stores no skill, and any non-crashing SUCCESS stores exactly one. -/
theorem C6_skill_consolidation (task : Task) (env : Nat → AttemptEnv)
    (p : Patch) (ps : List Patch) :
    ((env 0).result.status = TestStatus.passed → (env 0).patches = p :: ps →
      (runCycle task env).storedSkills =
        [{ name := "skill_" ++ task.id.take 8
           code := clean_code_block p.diff
           docstring := "Solution for: " ++ task.description
           embedding := none
           tags := ["verified", "auto-generated"] }]) ∧
    ((runCycle task env).success = false →
      (runCycle task env).storedSkills = []) ∧
    ((runCycle task env).crashed = false →
      (runCycle task env).success = true →
      (runCycle task env).storedSkills.length = 1) := by
  refine ⟨?_, (runCycleAux_skills env max_retries 0 task "").1,
    (runCycleAux_skills env max_retries 0 task "").2⟩
  intro hs hp
  show (runCycleAux env (2 + 1) 0 task "").storedSkills = _
  rw [runCycleAux_pass_step env 2 0 task "" p ps hs hp, applyFeedback_empty]
  rfl

/-- Witness for C6's amended theorem at a concrete successful cycle. -/
theorem C6_witness :
    (runCycle
      { id := "abcdef-12345", description := "Sort a list",
        requirements := [], initial_files := [],
        status := TaskStatus.pending }
      (fun _ =>
        { patches := [{ file_path := "lib.py",
                        diff := "```python\nA\n```", explanation := "e" }]
          result := { test_id := "t", status := TestStatus.passed,
                      stdout := "", stderr := "", exit_code := 0,
                      duration_ms := 0 } })).storedSkills =
      [{ name := "skill_abcdef-1", code := "A",
         docstring := "Solution for: Sort a list", embedding := none,
         tags := ["verified", "auto-generated"] }] :=
  (C6_skill_consolidation
    { id := "abcdef-12345", description := "Sort a list",
      requirements := [], initial_files := [], status := TaskStatus.pending }
    (fun _ =>
      { patches := [{ file_path := "lib.py", diff := "```python\nA\n```",
                      explanation := "e" }]
        result := { test_id := "t", status := TestStatus.passed,
                    stdout := "", stderr := "", exit_code := 0,
                    duration_ms := 0 } })
    { file_path := "lib.py", diff := "```python\nA\n```", explanation := "e" }
    []).1 (by decide) (by decide)

/-- C8: the first solve receives the original (unmutated) task; each later
solve receives a task agreeing with the previous one on every field except
the description, whose new value ends with the literal marker
`"PREVIOUS FAILURE FEEDBACK:"` followed by the previous attempt's stdout
and stderr. -/
theorem C8_retry_feedback (task : Task) (env : Nat → AttemptEnv) :
    (runCycle task env).solveTasks.get? 0 = some task ∧
    ∀ (i : Nat) (ti ti1 : Task),
      (runCycle task env).solveTasks.get? i = some ti →
      (runCycle task env).solveTasks.get? (i + 1) = some ti1 →
      ti1.id = ti.id ∧ ti1.requirements = ti.requirements ∧
      ti1.initial_files = ti.initial_files ∧ ti1.status = ti.status ∧
      ∃ a, ti1.description = a ++ ("PREVIOUS FAILURE FEEDBACK:\n" ++
        ("Test Failed. Output:\nSTDOUT:\n" ++ (env i).result.stdout ++
          "\n\nSTDERR:\n" ++ (env i).result.stderr)) := by
  constructor
  · show (runCycleAux env (2 + 1) 0 task "").solveTasks.get? 0 = some task
    rw [runCycleAux_head env 2 0 task "", applyFeedback_empty]
  · intro i ti ti1 h1 h2
    have hcons := runCycleAux_consecutive env max_retries 0 task "" i ti ti1 h1 h2
    rw [Nat.zero_add] at hcons
    rw [hcons]
    refine ⟨rfl, rfl, rfl, rfl, ti.description ++ "\n\n", ?_⟩
    have hA : feedbackMarker = "\n\n" ++ "PREVIOUS FAILURE FEEDBACK:\n" := by
      decide
    have hB : ("Test Failed. Output:\nSTDOUT:\n" : String) =
        "Test Failed. Output:\n" ++ "STDOUT:\n" := by decide
    rw [hA, hB]
    simp only [mkFeedback, String.append_assoc]

/-- Witness for C8 on a concrete cycle whose first attempt fails. -/
theorem C8_witness :
    ("t8" : String) = "t8" ∧ ([] : List String) = [] ∧
    ([] : List FileArtifact) = [] ∧ TaskStatus.pending = TaskStatus.pending ∧
    ∃ a, ("D8\n\nPREVIOUS FAILURE FEEDBACK:\nTest Failed. Output:\nSTDOUT:\nout\n\nSTDERR:\nerr" : String) =
      a ++ ("PREVIOUS FAILURE FEEDBACK:\n" ++
        ("Test Failed. Output:\nSTDOUT:\n" ++ "out" ++ "\n\nSTDERR:\n" ++ "err")) :=
  (C8_retry_feedback
    { id := "t8", description := "D8", requirements := [],
      initial_files := [], status := TaskStatus.pending }
    (fun _ =>
      { patches := []
        result := { test_id := "x", status := TestStatus.failed,
                    stdout := "out", stderr := "err", exit_code := 1,
                    duration_ms := 0 } })).2 0
    { id := "t8", description := "D8", requirements := [],
      initial_files := [], status := TaskStatus.pending }
    { id := "t8",
      description := "D8\n\nPREVIOUS FAILURE FEEDBACK:\nTest Failed. Output:\nSTDOUT:\nout\n\nSTDERR:\nerr",
      requirements := [], initial_files := [], status := TaskStatus.pending }
    (by decide) (by decide)

/-- C10: when the first two attempts fail, the three solve tasks are the
original task, the task with one appended feedback envelope, and the task
whose description is the second attempt's (already extended) description
with the second envelope appended — the envelopes accumulate. -/
theorem C10_feedback_accumulates (task : Task) (env : Nat → AttemptEnv)
    (h0 : (env 0).result.status ≠ TestStatus.passed)
    (h1 : (env 1).result.status ≠ TestStatus.passed) :
    (runCycle task env).solveTasks =
      [task,
       { task with description :=
           task.description ++ feedbackMarker ++ mkFeedback (env 0).result },
       { task with description :=
           (task.description ++ feedbackMarker ++ mkFeedback (env 0).result) ++
             feedbackMarker ++ mkFeedback (env 1).result }] := by
  show (runCycleAux env 3 0 task "").solveTasks = _
  rw [runCycleAux_fail_step3 env 0 task "" h0]
  dsimp only
  rw [applyFeedback_empty]
  rw [runCycleAux_fail_step2 env 1 task (mkFeedback (env 0).result) h1]
  dsimp only
  rw [applyFeedback_ne task _ (mkFeedback_ne_empty (env 0).result)]
  rw [runCycleAux_one env 2]
  rw [applyFeedback_ne _ _ (mkFeedback_ne_empty (env 1).result)]

/-- Witness for C10 at a concrete cycle with two failing attempts. -/
theorem C10_witness :
    (runCycle
      { id := "t10", description := "D10", requirements := [],
        initial_files := [], status := TaskStatus.pending }
      (fun _ =>
        { patches := []
          result := { test_id := "x", status := TestStatus.failed,
                      stdout := "o", stderr := "e", exit_code := 1,
                      duration_ms := 0 } })).solveTasks =
      [{ id := "t10", description := "D10", requirements := [],
         initial_files := [], status := TaskStatus.pending },
       { id := "t10",
         description := "D10\n\nPREVIOUS FAILURE FEEDBACK:\nTest Failed. Output:\nSTDOUT:\no\n\nSTDERR:\ne",
         requirements := [], initial_files := [],
         status := TaskStatus.pending },
       { id := "t10",
         description := "D10\n\nPREVIOUS FAILURE FEEDBACK:\nTest Failed. Output:\nSTDOUT:\no\n\nSTDERR:\ne\n\nPREVIOUS FAILURE FEEDBACK:\nTest Failed. Output:\nSTDOUT:\no\n\nSTDERR:\ne",
         requirements := [], initial_files := [],
         status := TaskStatus.pending }] :=
  C10_feedback_accumulates
    { id := "t10", description := "D10", requirements := [],
      initial_files := [], status := TaskStatus.pending }
    (fun _ =>
      { patches := []
        result := { test_id := "x", status := TestStatus.failed,
                    stdout := "o", stderr := "e", exit_code := 1,
                    duration_ms := 0 } })
    (by decide) (by decide)

/-- C1: for every call to the arbiter's `execute` that returns a
`TestResult` — the sandbox session outcome being any outcome permitted by
the documented vendor boundary contract — the result's status is PASSED if
and only if its `exit_code` equals 0. -/
theorem C1_passed_iff_exit_zero (timeout_seconds : Nat) (execution_id : String)
    (s : SessionOutcome) (h : VendorContract s) :
    ((execute timeout_seconds execution_id s).status = TestStatus.passed ↔
      (execute timeout_seconds execution_id s).exit_code = 0) := by
  cases s with
  | ran o =>
      cases o with
      | ok stdout stderr exit_code =>
          simp only [VendorContract] at h
          simp [execute, parse_process_output, h]
      | exc stdout stderr exit_code msg =>
          obtain ⟨n, hn, hne⟩ := h
          simp [execute, handle_command_exception, hn, hne]
  | timeout => simp [execute]
  | infra msg => simp [execute]

/-- Witness for C1 at a concrete vendor-contract-respecting outcome. -/
theorem C1_witness :
    VendorContract
      (SessionOutcome.ran (CmdOutcome.ok (some "ok") (some "") (some 0))) ∧
    ((execute 30 "exec-1"
        (SessionOutcome.ran (CmdOutcome.ok (some "ok") (some "") (some 0)))).status
          = TestStatus.passed ↔
      (execute 30 "exec-1"
        (SessionOutcome.ran (CmdOutcome.ok (some "ok") (some "") (some 0)))).exit_code
          = 0) :=
  ⟨rfl, C1_passed_iff_exit_zero 30 "exec-1" _ rfl⟩

/-- The outer `TimeoutError` handler (arbiter/sandbox.py lines 80-90)
produces ERROR with exit code 124, stderr `"Execution Timed Out"` and
`duration_ms = timeout_seconds * 1000` — the classification the spec
describes for a command timeout.  As `SessionOutcome.timeout` records, this
handler is reached only by a `TimeoutError` raised outside the inner
command-run `try`, never by an exception from the command run itself. -/
theorem outer_timeout_handler_result (timeout_seconds : Nat)
    (execution_id : String) :
    (execute timeout_seconds execution_id SessionOutcome.timeout).status
        = TestStatus.error ∧
    (execute timeout_seconds execution_id SessionOutcome.timeout).exit_code = 124 ∧
    (execute timeout_seconds execution_id SessionOutcome.timeout).stderr
        = "Execution Timed Out" :=
  ⟨rfl, rfl, rfl⟩

/-- C5: the claim says a test-command timeout yields ERROR, exit code 124
and stderr `"Execution Timed Out"`.  On the code it does not: a timeout
raised by `sandbox.commands.run` is an `Exception` caught by the inner
handler at line 74, and `_handle_command_exception` classifies it FAILED
with exit code 1 (the getattr default — timeout exceptions carry no
`exit_code` attribute) and stderr `str(error)`; the dedicated outer
ERROR/124 handler is unreachable from the command run.  This theorem
evaluates `execute` at such a session. -/
theorem C5_command_timeout_classified_failed :
    execute 30 "exec-5"
      (SessionOutcome.ran (CmdOutcome.exc none none none "Command timed out")) =
      { test_id := "exec-5", status := TestStatus.failed, stdout := "",
        stderr := "Command timed out", exit_code := 1, duration_ms := 0 } ∧
    TestStatus.failed ≠ TestStatus.error ∧ ((1 : Int) = 124 → False) :=
  ⟨rfl, by decide, by decide⟩

/-- C3 counterexample: with a head version of 5 runs and success rate 2/5,
a `step` whose gateway call fails does change the ledger history (a
fallback version is appended), refuting the claim that the ledger is left
unchanged. -/
theorem C3_counterexample :
    (step
      { history := [{ version_id := 0, content := "P", created_at := 0,
                      parent_version := none, change_summary := "Initial Version",
                      runs := 5, successes := 2, avg_success_rate := 2 / 5 }]
        current_version_id := 0 }
      [] (GatewayResult.err "gateway down") 0).1.history ≠
    [{ version_id := 0, content := "P", created_at := 0,
       parent_version := none, change_summary := "Initial Version",
       runs := 5, successes := 2, avg_success_rate := 2 / 5 }] := by
  rw [step_fires
    { history := [{ version_id := 0, content := "P", created_at := 0,
                    parent_version := none, change_summary := "Initial Version",
                    runs := 5, successes := 2, avg_success_rate := 2 / 5 }]
      current_version_id := 0 }
    [] (GatewayResult.err "gateway down") 0
    { version_id := 0, content := "P", created_at := 0,
      parent_version := none, change_summary := "Initial Version",
      runs := 5, successes := 2, avg_success_rate := 2 / 5 }
    rfl (by norm_num [evolution_threshold_runs])
    (by norm_num [evolution_threshold_rate])]
  intro hcontra
  exact absurd (congrArg List.length hcontra) (by simp)

/-- C3 amended: when the gateway call inside `step` fails (and the
evolution thresholds are met, so the gateway is consulted at all), `step`
appends a fallback `PromptVersion` whose content equals the current head's
content — the active prompt text is unchanged but the history grows and
`step` returns true. -/
theorem C3_gateway_failure_appends_fallback (st : OptState)
    (failures : List String) (msg : String) (now : Rat) (cur : PromptVersion)
    (h : st.history.getLast? = some cur)
    (hruns : evolution_threshold_runs ≤ cur.runs)
    (hrate : cur.avg_success_rate < evolution_threshold_rate) :
    step st failures (GatewayResult.err msg) now =
      ({ history := st.history ++
           [{ version_id := st.current_version_id + 1
              content := cur.content
              created_at := now
              parent_version := some cur.version_id
              change_summary := "None (Error)"
              runs := 0, successes := 0, avg_success_rate := 0 }]
         current_version_id := st.current_version_id + 1 }, true) :=
  step_fires st failures (GatewayResult.err msg) now cur h hruns hrate

/-- Witness for C3's amended theorem at a concrete ledger state. -/
theorem C3_witness :
    step
      { history := [{ version_id := 0, content := "P", created_at := 0,
                      parent_version := none, change_summary := "Initial Version",
                      runs := 5, successes := 2, avg_success_rate := 2 / 5 }]
        current_version_id := 0 }
      [] (GatewayResult.err "gateway down") 0 =
    ({ history := [{ version_id := 0, content := "P", created_at := 0,
                     parent_version := none, change_summary := "Initial Version",
                     runs := 5, successes := 2, avg_success_rate := 2 / 5 },
                   { version_id := 1, content := "P", created_at := 0,
                     parent_version := some 0, change_summary := "None (Error)",
                     runs := 0, successes := 0, avg_success_rate := 0 }]
       current_version_id := 1 }, true) :=
  C3_gateway_failure_appends_fallback
    { history := [{ version_id := 0, content := "P", created_at := 0,
                    parent_version := none, change_summary := "Initial Version",
                    runs := 5, successes := 2, avg_success_rate := 2 / 5 }]
      current_version_id := 0 }
    [] "gateway down" 0
    { version_id := 0, content := "P", created_at := 0,
      parent_version := none, change_summary := "Initial Version",
      runs := 5, successes := 2, avg_success_rate := 2 / 5 }
    rfl (by norm_num [evolution_threshold_runs])
    (by norm_num [evolution_threshold_rate])

/-- C4: `step` appends a new version (equivalently, returns true) iff the
head version has at least 5 runs and a success rate below 3/5; otherwise —
in particular whenever the head has fewer than 5 runs — the ledger state is
unchanged and `step` returns false. -/
theorem C4_step_trigger (st : OptState) (failures : List String)
    (gw : GatewayResult) (now : Rat) (cur : PromptVersion)
    (h : st.history.getLast? = some cur) :
    ((step st failures gw now).2 = true ↔
      (evolution_threshold_runs ≤ cur.runs ∧
        cur.avg_success_rate < evolution_threshold_rate)) ∧
    ((step st failures gw now).2 = true →
      ∃ v, (step st failures gw now).1.history = st.history ++ [v]) ∧
    ((step st failures gw now).2 = false → (step st failures gw now).1 = st) := by
  rcases Nat.lt_or_ge cur.runs evolution_threshold_runs with h1 | h1
  · rw [step_low_runs st failures gw now cur h h1]
    exact ⟨⟨fun hc => Bool.noConfusion hc,
        fun hc => absurd h1 (not_lt.mpr hc.1)⟩,
      fun hc => Bool.noConfusion hc, fun _ => rfl⟩
  · rcases lt_or_ge cur.avg_success_rate evolution_threshold_rate with h2 | h2
    · rw [step_fires st failures gw now cur h h1 h2]
      exact ⟨⟨fun _ => ⟨h1, h2⟩, fun _ => rfl⟩,
        fun _ => ⟨_, rfl⟩, fun hc => Bool.noConfusion hc⟩
    · rw [step_good_rate st failures gw now cur h h1 h2]
      exact ⟨⟨fun hc => Bool.noConfusion hc,
          fun hc => absurd h2 (not_le.mpr hc.2)⟩,
        fun hc => Bool.noConfusion hc, fun _ => rfl⟩

/-- Witness for C4 at a concrete ledger state whose head has 5 runs and
success rate 2/5: the step evolves. -/
theorem C4_witness :
    (step
        { history := [{ version_id := 0, content := "Q", created_at := 0,
                        parent_version := none, change_summary := "Initial Version",
                        runs := 5, successes := 2, avg_success_rate := 2 / 5 }]
          current_version_id := 0 }
        [] (GatewayResult.ok { analysis := "a", optimized_prompt := "R",
                               change_summary := "c" }) 0).2 = true :=
  ((C4_step_trigger
    { history := [{ version_id := 0, content := "Q", created_at := 0,
                    parent_version := none, change_summary := "Initial Version",
                    runs := 5, successes := 2, avg_success_rate := 2 / 5 }]
      current_version_id := 0 }
    [] (GatewayResult.ok { analysis := "a", optimized_prompt := "R",
                           change_summary := "c" }) 0
    { version_id := 0, content := "Q", created_at := 0,
      parent_version := none, change_summary := "Initial Version",
      runs := 5, successes := 2, avg_success_rate := 2 / 5 } rfl).1).mpr
    ⟨by norm_num [evolution_threshold_runs],
     by norm_num [evolution_threshold_rate]⟩

/-- C7 counterexample: on the input whose unique fenced body is
`"x \n"`, the sanitizer returns `"x"` — the stripped body — and not the
body of the fenced block itself, refuting the claim as stated. -/
theorem C7_counterexample :
    findBlocks ("```\nx \n```".toList) = ["x \n".toList] ∧
    clean_code_block "```\nx \n```" = "x" ∧
    ("x" : String) ≠ "x \n" :=
  ⟨by decide, by decide, by decide⟩

/-- C7 (amended): for every input containing at least one fenced block,
the sanitizer returns the whitespace-stripped body of a fenced block of
maximal body length, and the returned string never contains the fence
marker (three consecutive backticks). -/
theorem C7_sanitizer_stripped_longest_body (s : String)
    (h : findBlocks s.toList ≠ []) :
    (∃ b ∈ findBlocks s.toList,
        clean_code_block s = (pyStrip b).asString ∧
        ∀ b' ∈ findBlocks s.toList, b'.length ≤ b.length) ∧
    hasFence (clean_code_block s).toList = false := by
  cases hfb : findBlocks s.toList with
  | nil => exact absurd hfb h
  | cons m ms =>
    have hclean : clean_code_block s = (pyStrip (maxByLen m ms)).asString := by
      unfold clean_code_block
      rw [hfb]
    constructor
    · refine ⟨maxByLen m ms, ?_, hclean, ?_⟩
      · exact maxByLen_mem ms m
      · intro b' hb'
        exact maxByLen_le ms m b' hb'
    · rw [hclean, List.toList_asString]
      apply pyStrip_no_fence
      apply findBlocks_no_fence s.toList
      rw [hfb]
      exact maxByLen_mem ms m

/-- Witness for C7's amended theorem on a concrete fenced input. -/
theorem C7_witness :
    (∃ b ∈ findBlocks ("```py\nok\n```".toList),
        clean_code_block "```py\nok\n```" = (pyStrip b).asString ∧
        ∀ b' ∈ findBlocks ("```py\nok\n```".toList), b'.length ≤ b.length) ∧
    hasFence (clean_code_block "```py\nok\n```").toList = false :=
  C7_sanitizer_stripped_longest_body "```py\nok\n```" (by decide)

/-- C9: a re-rank over a candidate list whose length is at most `top_k`
returns the input list unchanged and performs no model gateway call,
whatever the gateway would have answered. -/
theorem C9_rerank_small_identity (query : String) (candidates : List Skill)
    (top_k : Nat) (llm : ReRankOutcome)
    (h : candidates.length ≤ top_k) :
    rerank query candidates top_k llm = (candidates, 0) := by
  unfold rerank
  by_cases hc : candidates.isEmpty
  · rw [if_pos hc]
    rw [List.isEmpty_iff] at hc
    rw [hc]
  · rw [if_neg hc, if_pos h]

/-- Witness for C9 at a concrete two-element candidate list and K = 3. -/
theorem C9_witness :
    rerank "query"
      [{ name := "s1", code := "c1", docstring := "d1" },
       { name := "s2", code := "c2", docstring := "d2" }]
      3 (ReRankOutcome.err "unused") =
    ([{ name := "s1", code := "c1", docstring := "d1" },
      { name := "s2", code := "c2", docstring := "d2" }], 0) :=
  C9_rerank_small_identity "query" _ 3 _ (by decide)

end Uroboros
